import Mathlib

/-!
Verification development for the AcquireMock payment gateway.

The definitions below are a shallow embedding of the repository's payment
lifecycle engine: the signature codec (`services/webhook_service.py`), the
payment state machine (`main.py`), the repository functions
(`database/functional/main_functions.py`), the data model
(`database/models/main_models.py`) and the background reconciler
(`services/background_tasks.py`).  Timestamps are modelled as `Nat` ticks,
machine-level byte and word arithmetic as `Nat` with explicit reduction
modulo powers of two, and fallible operations return `Except`.
-/

namespace AcquireMock

/-! ## JSON values and canonical serialization (json.dumps with sort_keys) -/

/-- JSON value as produced for the webhook payload: `None`, strings, integers
    and objects (Python dicts, hence association lists with distinct keys). -/
inductive JValue where
  | null
  | str (s : String)
  | num (n : Int)
  | obj (entries : List (String × JValue))

/-- The sixteen lowercase hex digit characters. -/
def hexTable : List Char := "0123456789abcdef".data

/-- Hexadecimal digit character, as in Python's lowercase hex output. -/
def nibbleChar (n : Nat) : Char := hexTable.getD n '0'

/-- Four lowercase hex digits of a code point, as in json.dumps \uXXXX escapes. -/
def hex4 (n : Nat) : String :=
  String.mk [nibbleChar (n / 4096 % 16), nibbleChar (n / 256 % 16),
    nibbleChar (n / 16 % 16), nibbleChar (n % 16)]

/-- Escape of one character inside a JSON string literal, matching
    `json.dumps` with its default `ensure_ascii=True`: printable ASCII other
    than quote and backslash is kept, the usual short escapes are used, and
    everything else becomes \uXXXX (with surrogate pairs above 0xFFFF). -/
def escapeChar (c : Char) : String :=
  if c = '"' then "\\\""
  else if c = '\\' then "\\\\"
  else if c = '\n' then "\\n"
  else if c = '\r' then "\\r"
  else if c = '\t' then "\\t"
  else if c.toNat = 8 then "\\b"
  else if c.toNat = 12 then "\\f"
  else if 32 ≤ c.toNat ∧ c.toNat ≤ 126 then String.mk [c]
  else if c.toNat < 65536 then "\\u" ++ hex4 c.toNat
  else
    let n := c.toNat - 65536
    "\\u" ++ hex4 (55296 + n / 1024) ++ "\\u" ++ hex4 (56320 + n % 1024)

/-- JSON string literal serialization. -/
def escapeString (s : String) : String :=
  "\"" ++ String.join (s.data.map escapeChar) ++ "\""

/-- Ordered insertion of a (key, serialized value) pair, keeping keys in
    lexicographic order; this realizes the effect of `sort_keys=True`. -/
def insortKV (e : String × String) : List (String × String) → List (String × String)
  | [] => [e]
  | x :: xs => if e.1 ≤ x.1 then e :: x :: xs else x :: insortKV e xs

/-- Sort (key, serialized value) pairs by key, lexicographically. -/
def sortKV (l : List (String × String)) : List (String × String) :=
  l.foldr insortKV []

/-- Glue sorted entries into the object syntax with json.dumps's default
    separators. -/
def glueEntries (l : List (String × String)) : String :=
  "\x7b" ++ String.intercalate ", " (l.map (fun e => escapeString e.1 ++ ": " ++ e.2)) ++ "\x7d"

mutual
/-- Serialization of a JSON value exactly as `json.dumps(payload, sort_keys=True)`
    renders it: object keys sorted lexicographically, separators ", " and ": ". -/
def dumpsVal : JValue → String
  | .null => "null"
  | .str s => escapeString s
  | .num n => toString n
  | .obj l => glueEntries (sortKV (dumpsKV l))

/-- Serialization of each value of an association list, keeping the key. -/
def dumpsKV : List (String × JValue) → List (String × String)
  | [] => []
  | (k, v) :: rest => (k, dumpsVal v) :: dumpsKV rest
end

/-! ## SHA-256 and HMAC (hashlib.sha256, hmac.new(..., hashlib.sha256)) -/

/-- Reduction to a 32-bit word. -/
def w32 (x : Nat) : Nat := x % 4294967296

/-- Right rotation of a 32-bit word. -/
def rotr32 (n x : Nat) : Nat := w32 ((x >>> n) ||| (x <<< (32 - n)))

/-- SHA-256 round constants. -/
def shaK : List Nat :=
  [1116352408, 1899447441, 3049323471, 3921009573,
   961987163, 1508970993, 2453635748, 2870763221,
   3624381080, 310598401, 607225278, 1426881987,
   1925078388, 2162078206, 2614888103, 3248222580,
   3835390401, 4022224774, 264347078, 604807628,
   770255983, 1249150122, 1555081692, 1996064986,
   2554220882, 2821834349, 2952996808, 3210313671,
   3336571891, 3584528711, 113926993, 338241895,
   666307205, 773529912, 1294757372, 1396182291,
   1695183700, 1986661051, 2177026350, 2456956037,
   2730485921, 2820302411, 3259730800, 3345764771,
   3516065817, 3600352804, 4094571909, 275423344,
   430227734, 506948616, 659060556, 883997877,
   958139571, 1322822218, 1537002063, 1747873779,
   1955562222, 2024104815, 2227730452, 2361852424,
   2428436474, 2756734187, 3204031479, 3329325298]

/-- Working state of the SHA-256 compression function. -/
structure H8 where
  a : Nat
  b : Nat
  c : Nat
  d : Nat
  e : Nat
  f : Nat
  g : Nat
  h : Nat
deriving DecidableEq

/-- SHA-256 initial hash value. -/
def shaH0 : H8 :=
  ⟨1779033703, 3144134277, 1013904242, 2773480762,
   1359893119, 2600822924, 528734635, 1541459225⟩

/-- Message-schedule extension: append `k` further words to the 16 block words. -/
def extendW : List Nat → Nat → List Nat
  | ws, 0 => ws
  | ws, Nat.succ k =>
    let n := ws.length
    let w15 := ws.getD (n - 15) 0
    let w2 := ws.getD (n - 2) 0
    let w16 := ws.getD (n - 16) 0
    let w7 := ws.getD (n - 7) 0
    let s0 := rotr32 7 w15 ^^^ rotr32 18 w15 ^^^ (w15 >>> 3)
    let s1 := rotr32 17 w2 ^^^ rotr32 19 w2 ^^^ (w2 >>> 10)
    extendW (ws ++ [w32 (w16 + s0 + w7 + s1)]) k

/-- One round of the SHA-256 compression function. -/
def compressStep (st : H8) (kw : Nat × Nat) : H8 :=
  let s1 := rotr32 6 st.e ^^^ rotr32 11 st.e ^^^ rotr32 25 st.e
  let ch := (st.e &&& st.f) ^^^ ((st.e ^^^ 4294967295) &&& st.g)
  let t1 := w32 (st.h + s1 + ch + kw.1 + kw.2)
  let s0 := rotr32 2 st.a ^^^ rotr32 13 st.a ^^^ rotr32 22 st.a
  let maj := (st.a &&& st.b) ^^^ (st.a &&& st.c) ^^^ (st.b &&& st.c)
  let t2 := w32 (s0 + maj)
  ⟨w32 (t1 + t2), st.a, st.b, st.c, w32 (st.d + t1), st.e, st.f, st.g⟩

/-- Compression of one 16-word block into the running hash value. -/
def compressBlock (st : H8) (block : List Nat) : H8 :=
  let ws := extendW block 48
  let r := (shaK.zip ws).foldl compressStep st
  ⟨w32 (st.a + r.a), w32 (st.b + r.b), w32 (st.c + r.c), w32 (st.d + r.d),
   w32 (st.e + r.e), w32 (st.f + r.f), w32 (st.g + r.g), w32 (st.h + r.h)⟩

/-- Big-endian byte rendering of a number on `count` bytes. -/
def beBytes (count n : Nat) : List Nat :=
  (List.range count).map (fun i => n >>> (8 * (count - 1 - i)) % 256)

/-- SHA-256 padding: a 0x80 byte, zeros to 56 mod 64, and the 8-byte
    big-endian bit length. -/
def padMessage (msg : List Nat) : List Nat :=
  let len := msg.length
  let k := (64 + 56 - (len + 1) % 64) % 64
  msg ++ [128] ++ List.replicate k 0 ++ beBytes 8 (len * 8)

/-- Split a byte list into 64-byte chunks. -/
def chunks64 : List Nat → List (List Nat)
  | [] => []
  | x :: xs => (x :: xs).take 64 :: chunks64 ((x :: xs).drop 64)
termination_by l => l.length
decreasing_by simp [List.length_drop]; omega

/-- Big-endian word from four bytes. -/
def word4 (l : List Nat) : Nat :=
  (l.take 4).foldl (fun a b => a * 256 + b) 0

/-- The 16 big-endian words of a 64-byte block. -/
def wordsOfBlock (block : List Nat) : List Nat :=
  (List.range 16).map (fun i => word4 (block.drop (4 * i)))

/-- Digest bytes of a final hash value. -/
def digestBytes (st : H8) : List Nat :=
  beBytes 4 st.a ++ beBytes 4 st.b ++ beBytes 4 st.c ++ beBytes 4 st.d ++
  beBytes 4 st.e ++ beBytes 4 st.f ++ beBytes 4 st.g ++ beBytes 4 st.h

/-- SHA-256 of a byte list (hashlib.sha256). -/
def sha256 (msg : List Nat) : List Nat :=
  let blocks := chunks64 (padMessage msg)
  digestBytes (blocks.foldl (fun s b => compressBlock s (wordsOfBlock b)) shaH0)

/-- HMAC-SHA256 (hmac.new with a 64-byte block size). -/
def hmacSha256 (key msg : List Nat) : List Nat :=
  let k1 := if 64 < key.length then sha256 key else key
  let k2 := k1 ++ List.replicate (64 - k1.length) 0
  sha256 ((k2.map (fun b => b ^^^ 92)) ++ sha256 ((k2.map (fun b => b ^^^ 54)) ++ msg))

/-- Character list of the lowercase hex encoding of a byte list. -/
def hexChars (l : List Nat) : List Char :=
  l.foldr (fun b acc => nibbleChar (b / 16 % 16) :: nibbleChar (b % 16) :: acc) []

/-- Lowercase hex encoding of a byte list (hexdigest). -/
def hexEncode (l : List Nat) : String :=
  String.mk (hexChars l)

/-- UTF-8 bytes of one character (str.encode()). -/
def utf8Bytes (c : Char) : List Nat :=
  let n := c.toNat
  if n < 128 then [n]
  else if n < 2048 then [192 + n / 64, 128 + n % 64]
  else if n < 65536 then [224 + n / 4096, 128 + n / 64 % 64, 128 + n % 64]
  else [240 + n / 262144, 128 + n / 4096 % 64, 128 + n / 64 % 64, 128 + n % 64]

/-- UTF-8 bytes of a string (str.encode()). -/
def strBytes (s : String) : List Nat :=
  (s.data.map utf8Bytes).flatten

/-! ## Signature codec (services/webhook_service.py) -/

/-- Default shared secret (the WEBHOOK_SECRET environment fallback). -/
def WEBHOOK_SECRET : String := "default_secret_key_change_in_production"

/-- Webhook signature: canonical JSON with sorted keys, HMAC-SHA256 under the
    shared secret, hex-encoded (generate_webhook_signature). -/
def generate_webhook_signature (payload : JValue) (secret : String) : String :=
  hexEncode (hmacSha256 (strBytes secret) (strBytes (dumpsVal payload)))

/-- Signature verification: recompute the expected signature and compare
    (verify_webhook_signature; hmac.compare_digest is equality in value). -/
def verify_webhook_signature (payload : JValue) (signature secret : String) : Bool :=
  generate_webhook_signature payload secret == signature

/-! ## Data model (database/models/main_models.py) -/

/-- Payment row.  Status and webhook delivery status are the literal strings
    the code stores; timestamps are Nat ticks; `amount` is modelled as Int. -/
structure Payment where
  id : String
  amount : Int
  reference : String
  webhook_url : String
  redirect_url : String
  status : String := "pending"
  otp_email : Option String := none
  otp_code : Option String := none
  card_mask : Option String := none
  idempotency_key : Option String := none
  psp_transaction_id : Option String := none
  error_code : Option String := none
  error_message : Option String := none
  webhook_attempts : Nat := 0
  webhook_last_attempt : Option Nat := none
  webhook_status : Option String := none
  created_at : Nat := 0
  updated_at : Nat := 0
  expires_at : Nat := 0
  paid_at : Option Nat := none
deriving DecidableEq

/-- Receipt row; `payment_id` carries a unique constraint. -/
structure SuccessFulOperation where
  payment_id : String
  email : Option String
  amount : Int
  reference : String
  card_mask : Option String
  redirect_url : String
  created_at : Nat := 0
deriving DecidableEq

/-- Saved card row; card number and CVV only as one-way hashes. -/
structure SavedCard where
  id : Nat
  email : String
  card_token : String
  card_hash : String
  cvv_hash : String
  expiry : Option String
  card_mask : String
  psp_provider : String := "mock"
deriving DecidableEq

/-- Append-only webhook delivery audit row. -/
structure WebhookLog where
  payment_id : String
  webhook_url : String
  payload : String
  response_status : Option Nat := none
  response_body : Option String := none
  signature : String
  attempt_number : Nat
  success : Bool
  error_message : Option String := none
  created_at : Nat := 0
deriving DecidableEq

/-- The backing store. -/
structure DB where
  payments : List Payment
  operations : List SuccessFulOperation
  saved_cards : List SavedCard
  webhook_logs : List WebhookLog
deriving DecidableEq

/-! ## Repository functions (database/functional/main_functions.py) -/

/-- Lookup of a payment by primary key (get_payment). -/
def get_payment (db : DB) (pid : String) : Option Payment :=
  db.payments.find? (fun p => p.id == pid)

/-- Store a payment row, stamping updated_at (update_payment). -/
def update_payment (db : DB) (now : Nat) (p : Payment) : DB :=
  { db with payments :=
      db.payments.map (fun q => if q.id == p.id then { p with updated_at := now } else q) }

/-- Lookup of a payment by idempotency key (get_payment_by_idempotency). -/
def get_payment_by_idempotency (db : DB) (key : String) : Option Payment :=
  db.payments.find? (fun p => p.idempotency_key == some key)

/-- Pending payments past their expiry (get_expired_payments). -/
def get_expired_payments (db : DB) (now : Nat) : List Payment :=
  db.payments.filter (fun p => p.status == "pending" && decide (p.expires_at < now))

/-- Paid payments with failed delivery below the attempt ceiling
    (get_failed_webhooks). -/
def get_failed_webhooks (db : DB) (max_attempts : Nat) : List Payment :=
  db.payments.filter (fun p =>
    decide (p.webhook_attempts < max_attempts) && p.webhook_status == some "failed"
      && p.status == "paid")

/-- Insert of the receipt row; the unique constraint on payment_id makes a
    duplicate insert fail (send_successful_operation). -/
def send_successful_operation (db : DB) (op : SuccessFulOperation) :
    Except String DB :=
  if db.operations.any (fun o => o.payment_id == op.payment_id) then
    .error "UNIQUE constraint failed: successful_operations.payment_id"
  else
    .ok { db with operations := db.operations ++ [op] }

/-- Append a webhook audit row (log_webhook). -/
def log_webhook (db : DB) (row : WebhookLog) : DB :=
  { db with webhook_logs := db.webhook_logs ++ [row] }

/-! ## Collaborators absent from the sources, modelled from the spec -/

/-- Modelled from the spec: `security.crypto.generate_secure_otp` is not under
    the sources; §2 specifies cryptographically secure numeric code
    generation.  Modelled as a 6-digit numeric code drawn from an entropy
    input. -/
def generate_secure_otp (entropy : Nat) : String :=
  toString (100000 + entropy % 900000)

/-- Modelled from the spec: `security.crypto.hash_sensitive_data` is not under
    the sources; §3 specifies a one-way hash of card number and CVV.
    Modelled as a tagged encoding whose verifier recomputes it. -/
def hash_sensitive_data (s : String) : String :=
  "hashed:" ++ s

/-- Modelled from the spec: `security.crypto.verify_sensitive_data` checks a
    plaintext against a stored one-way hash. -/
def verify_sensitive_data (plain stored : String) : Bool :=
  hash_sensitive_data plain == stored

/-- Modelled from the spec: `security.sanitizer.clean_input` is not under the
    sources; §4.2 says the merchant reference is sanitized against injection
    before storage.  Modelled as stripping markup-significant characters. -/
def clean_input (s : String) : String :=
  String.mk (s.data.filter (fun c => !(c == '<' || c == '>')))

/-! ## Payment state machine (main.py) -/

/-- Domain errors (models/errors.py), raised by the state machine. -/
inductive PaymentErr where
  | notFound (pid : String)
  | alreadyProcessed (pid : String)
  | expired (pid : String)
  | insufficientFunds (pid : String)
  | invalidOTP (pid : String)
  | csrfMismatch (pid : String)
  | savedCardNotFound (cardId : Nat)
deriving DecidableEq

/-- Redirect outcome of a successful request. -/
inductive PayResult where
  | redirectSuccess (pid : String)
  | redirectOtp (pid : String)
deriving DecidableEq

instance exceptPayDecEq : DecidableEq (Except PaymentErr PayResult) := fun x y =>
  match x, y with
  | .ok a, .ok b => decidable_of_iff (a = b) ⟨fun h => by rw [h], fun h => by injection h⟩
  | .ok _, .error _ => isFalse (fun h => Except.noConfusion h)
  | .error _, .ok _ => isFalse (fun h => Except.noConfusion h)
  | .error e, .error f => decidable_of_iff (e = f) ⟨fun h => by rw [h], fun h => by injection h⟩

/-- Status of the stored payment row, for stating transition facts. -/
def statusInDb (db : DB) (pid : String) : Option String :=
  (get_payment db pid).map (fun p => p.status)

/-- Invoice creation (create_invoice): sanitize the reference, create a
    pending payment expiring 15 minutes (900 ticks) from now, and return the
    checkout URL. -/
def create_invoice (now : Nat) (newId : String) (amount : Int)
    (reference webhook_url redirect_url : String) (db : DB) : String × DB :=
  let p : Payment :=
    { id := newId, amount := amount, reference := clean_input reference,
      webhook_url := webhook_url, redirect_url := redirect_url,
      status := "pending", created_at := now, updated_at := now,
      expires_at := now + 15 * 60 }
  ("http://localhost:8002/checkout/" ++ newId,
    { db with payments := db.payments ++ [p] })

/-- Receipt insert inside try/except: a failed insert (such as the
    unique-constraint duplicate) is caught and logged, leaving the store as
    it was. -/
def try_insert_receipt (db : DB) (op : SuccessFulOperation) : DB :=
  match send_successful_operation db op with
  | .ok db2 => db2
  | .error _ => db

/-- Finalization (finalize_successful_payment): commit `paid` with paid_at,
    then attempt the secondary receipt insert inside try/except — a failure
    (unique-constraint duplicate, or a transient error modelled by the
    `receiptDbError` flag) is caught and logged, never rolling back `paid`.
    The receipt email and webhook dispatch are fire-and-forget background
    tasks and do not change the store here. -/
def finalize_successful_payment (now : Nat) (p : Payment) (db : DB)
    (receiptDbError : Bool) : DB :=
  let p1 : Payment := { p with status := "paid", paid_at := some now }
  let db1 := update_payment db now p1
  if receiptDbError then db1
  else
    try_insert_receipt db1
      { payment_id := p1.id, email := p1.otp_email, amount := p1.amount,
        reference := p1.reference, card_mask := p1.card_mask,
        redirect_url := p1.redirect_url, created_at := now }

/-- CSRF gate of process_payment: the cookie token must be present (truthy)
    and equal to the form token. -/
def csrf_ok (cookieToken : Option String) (formToken : String) : Bool :=
  match cookieToken with
  | none => false
  | some ct => ct != "" && ct == formToken

/-- Trusted-device gate: the user_email cookie is present (truthy) and equal
    to the submitted email. -/
def cookie_matches (cookieEmail : Option String) (email : String) : Bool :=
  match cookieEmail with
  | none => false
  | some ce => ce != "" && ce == email

/-- Idempotency short-circuit of process_payment: a truthy key mapping to a
    different payment redirects to that payment's success or OTP page when it
    is paid or waiting_for_otp; any other state falls through. -/
def idempotency_shortcut (db : DB) (pid : String) (key : Option String) :
    Option PayResult :=
  match key with
  | none => none
  | some k =>
    if k == "" then none
    else
      match get_payment_by_idempotency db k with
      | none => none
      | some existing =>
        if existing.id != pid then
          if existing.status == "paid" then some (.redirectSuccess existing.id)
          else if existing.status == "waiting_for_otp" then some (.redirectOtp existing.id)
          else none
        else none

/-- Request cookies of the checkout session. -/
structure Cookies where
  csrf_token : Option String
  user_email : Option String
deriving DecidableEq

/-- Form and header inputs of process_payment.  `saved_card_id` is the
    pre-parsed numeric form field (the handler requires it nonempty and
    parses it with int()). -/
structure SubmitForm where
  card_number : Option String
  expiry : Option String
  cvv : Option String
  saved_card_id : Option Nat
  email : String
  save_card : Bool
  csrf_token : String
  idempotency_key : Option String
deriving DecidableEq

/-- Python card_number.replace(" ", ""). -/
def stripSpaces (s : String) : String :=
  String.mk (s.data.filter (fun c => !(c == ' ')))

/-- Display mask from the last four digits (card_number_clean[-4:]). -/
def cardMaskOf (clean : String) : String :=
  "**** " ++ String.mk (clean.data.drop (clean.data.length - 4))

/-- Card resolution step of process_payment: saved-card reference verified
    against the mock valid PAN, or raw card input compared to it; on a valid
    raw card with save requested and no (email, mask) duplicate, a SavedCard
    row is persisted (hashes only). -/
def resolve_card (db : DB) (payment : Payment) (form : SubmitForm)
    (cardToken : String) : Except PaymentErr (Bool × Payment × DB) :=
  match form.saved_card_id with
  | some cid =>
    match db.saved_cards.find? (fun c => c.id == cid) with
    | none => .error (.savedCardNotFound cid)
    | some sc =>
      if verify_sensitive_data "4444444444444444" sc.card_hash then
        .ok (true,
          { payment with otp_email := some form.email, card_mask := some sc.card_mask },
          db)
      else .ok (false, payment, db)
  | none =>
    match form.card_number with
    | none => .ok (false, payment, db)
    | some cn =>
      let clean := stripSpaces cn
      if clean == "4444444444444444" then
        let mask := cardMaskOf clean
        let payment2 :=
          { payment with otp_email := some form.email, card_mask := some mask }
        let db2 :=
          if form.save_card then
            if db.saved_cards.any (fun c => c.email == form.email && c.card_mask == mask)
            then db
            else { db with saved_cards := db.saved_cards ++
              [{ id := db.saved_cards.length + 1, email := form.email,
                 card_token := cardToken, card_hash := hash_sensitive_data clean,
                 cvv_hash := hash_sensitive_data (form.cvv.getD ""),
                 expiry := form.expiry, card_mask := mask }] }
          else db
        .ok (true, payment2, db2)
      else .ok (false, payment, db)

/-- Card submission (process_payment, POST /pay): CSRF gate, idempotency
    short-circuit, existence and terminal-state guards, card resolution, then
    either trusted-device finalization, OTP issuance, or failure.  `otpEntropy`
    feeds the OTP generator and `cardToken` the saved-card token; both model
    the handler's randomness. -/
def process_payment (now : Nat) (pid : String) (form : SubmitForm)
    (cookies : Cookies) (otpEntropy : Nat) (cardToken : String)
    (receiptDbError : Bool) (db : DB) : Except PaymentErr PayResult × DB :=
  if !csrf_ok cookies.csrf_token form.csrf_token then
    (.error (.csrfMismatch pid), db)
  else
    match idempotency_shortcut db pid form.idempotency_key with
    | some r => (.ok r, db)
    | none =>
      match get_payment db pid with
      | none => (.error (.notFound pid), db)
      | some payment0 =>
        if payment0.status == "paid" || payment0.status == "expired"
            || payment0.status == "failed" then
          (.error (.alreadyProcessed pid), db)
        else
          let payment1 :=
            match form.idempotency_key with
            | some k => if k == "" then payment0
                        else { payment0 with idempotency_key := some k }
            | none => payment0
          match resolve_card db payment1 form cardToken with
          | .error e => (.error e, db)
          | .ok (isValid, payment2, db2) =>
            if isValid then
              if cookie_matches cookies.user_email form.email then
                (.ok (.redirectSuccess pid),
                  finalize_successful_payment now payment2 db2 receiptDbError)
              else
                let code := generate_secure_otp otpEntropy
                let payment3 :=
                  { payment2 with otp_code := some code, status := "waiting_for_otp" }
                (.ok (.redirectOtp pid), update_payment db2 now payment3)
            else
              let payment3 :=
                { payment2 with
                  status := "failed",
                  error_code := some "INSUFFICIENT_FUNDS",
                  error_message := some "Invalid card or insufficient funds" }
              (.error (.insufficientFunds pid), update_payment db2 now payment3)

/-- OTP check used by verify_otp (other/miscFunctions.validate_otp and the
    inline condition at main.py:407): a falsy stored code (None or "") fails,
    otherwise the submitted code must match exactly. -/
def validate_otp (payment : Payment) (input_code : String) : Bool :=
  match payment.otp_code with
  | none => false
  | some c => if c == "" then false else c == input_code

/-- OTP verification (verify_otp, POST /otp/verify): NotFound when the
    payment is absent, InvalidOTP on a falsy or mismatching stored code
    without any mutation, and on a match the stored code is cleared and the
    payment finalized.  No status or expiry consultation occurs. -/
def verify_otp (now : Nat) (pid : String) (otp_code : String)
    (receiptDbError : Bool) (db : DB) : Except PaymentErr PayResult × DB :=
  match get_payment db pid with
  | none => (.error (.notFound pid), db)
  | some payment =>
    if !validate_otp payment otp_code then (.error (.invalidOTP pid), db)
    else
      (.ok (.redirectSuccess pid),
        finalize_successful_payment now { payment with otp_code := none } db receiptDbError)

/-! ## Webhook delivery engine (services/webhook_service.py) -/

/-- Outcome of the single HTTP POST of a delivery attempt. -/
inductive HttpOutcome where
  | response (status : Nat) (body : String)
  | timeout
  | transportError (msg : String)
deriving DecidableEq

/-- Canonical notification payload built by send_webhook_with_retry. -/
def webhook_payload (now : Nat) (p : Payment) : JValue :=
  .obj [("payment_id", .str p.id), ("reference", .str p.reference),
        ("amount", .num p.amount), ("status", .str p.status),
        ("timestamp", .str (toString now)),
        ("card_mask", match p.card_mask with | none => .null | some m => .str m)]

/-- One delivery attempt (send_webhook_with_retry): a falsy webhook URL
    aborts with no effect; otherwise the payload is signed and posted, and
    whatever the outcome — success set {200,201,202,204}, other status,
    timeout, or transport error — exactly one WebhookLog row is appended and
    the payment's attempt counter, last-attempt timestamp and delivery status
    are updated.  Returns the success flag, the mutated payment and the
    store. -/
def send_webhook_with_retry (now : Nat) (p : Payment) (outcome : HttpOutcome)
    (db : DB) : Bool × Payment × DB :=
  if p.webhook_url == "" then (false, p, db)
  else
    let payloadStr := dumpsVal (webhook_payload now p)
    let signature := generate_webhook_signature (webhook_payload now p) WEBHOOK_SECRET
    let attempt := p.webhook_attempts + 1
    match outcome with
    | .response st body =>
      let success := st == 200 || st == 201 || st == 202 || st == 204
      let row : WebhookLog :=
        { payment_id := p.id, webhook_url := p.webhook_url, payload := payloadStr,
          response_status := some st,
          response_body := some (String.mk (body.data.take 1000)),
          signature := signature, attempt_number := attempt, success := success,
          created_at := now }
      let p1 := { p with
        webhook_attempts := attempt,
        webhook_last_attempt := some now,
        webhook_status := some (if success then "success" else "failed") }
      (success, p1, update_payment (log_webhook db row) now p1)
    | .timeout =>
      let row : WebhookLog :=
        { payment_id := p.id, webhook_url := p.webhook_url, payload := payloadStr,
          signature := signature, attempt_number := attempt, success := false,
          error_message := some "Request timeout", created_at := now }
      let p1 := { p with
        webhook_attempts := attempt,
        webhook_last_attempt := some now, webhook_status := some "failed" }
      (false, p1, update_payment (log_webhook db row) now p1)
    | .transportError msg =>
      let row : WebhookLog :=
        { payment_id := p.id, webhook_url := p.webhook_url, payload := payloadStr,
          signature := signature, attempt_number := attempt, success := false,
          error_message := some msg, created_at := now }
      let p1 := { p with
        webhook_attempts := attempt,
        webhook_last_attempt := some now, webhook_status := some "failed" }
      (false, p1, update_payment (log_webhook db row) now p1)

/-! ## Background reconciler (services/background_tasks.py) -/

/-- One iteration of the expiration sweep (expire_pending_payments_task):
    every pending payment past its expiry is transitioned to expired. -/
def expire_iteration (now : Nat) (db : DB) : DB :=
  (get_expired_payments db now).foldl
    (fun acc p => update_payment acc now { p with status := "expired" }) db

/-- Record of one processed retry: the payment, the exponential-backoff sleep
    taken before the attempt (2 ^ current attempts), and the outcome. -/
structure RetryRecord where
  payment_id : String
  delay : Nat
  success : Bool
deriving DecidableEq

/-- Processing of one due payment inside the retry sweep: sleep
    2 ^ current attempts, then one delivery attempt against the current
    store. -/
def retry_step (now : Nat) (outcomes : String → HttpOutcome)
    (acc : DB × List RetryRecord) (p : Payment) : DB × List RetryRecord :=
  let s := send_webhook_with_retry now p (outcomes p.id) acc.1
  (s.2.2, acc.2 ++ [{ payment_id := p.id, delay := 2 ^ p.webhook_attempts,
                      success := s.1 }])

/-- One iteration of the webhook retry sweep (retry_failed_webhooks_task):
    query paid payments with failed delivery and fewer than 5 attempts; for
    each, sleep 2 ^ attempts then invoke one delivery attempt; a failed
    attempt does not stop the loop over the remaining due payments.
    `outcomes` gives the HTTP outcome per payment id. -/
def retry_failed_webhooks_iteration (now : Nat) (outcomes : String → HttpOutcome)
    (db : DB) : DB × List RetryRecord :=
  (get_failed_webhooks db 5).foldl (retry_step now outcomes) (db, [])

/-! ## Derived definitions and concrete instances used by the theorems -/

/-- String with the character at position `i` replaced (a single-byte
    mutation of an ASCII string). -/
def strSet (s : String) (i : Nat) (c : Char) : String :=
  String.mk (s.data.set i c)

/-- Number of stored receipt rows for a payment id. -/
def countOps (db : DB) (pid : String) : Nat :=
  (db.operations.filter (fun o => o.payment_id == pid)).length

/-- Pending payment whose expiry (tick 100) is already past at submission
    time (tick 200). -/
def c1p : Payment :=
  { id := "p1", amount := 500, reference := "ORD-1",
    webhook_url := "http://merchant.example/hook",
    redirect_url := "http://merchant.example/done",
    status := "pending", expires_at := 100 }

def c1db : DB :=
  { payments := [c1p], operations := [], saved_cards := [], webhook_logs := [] }

def c1form : SubmitForm :=
  { card_number := some "4444 4444 4444 4444", expiry := some "12/30",
    cvv := some "123", saved_card_id := none, email := "payer@example.com",
    save_card := false, csrf_token := "tok1", idempotency_key := none }

def c1cookies : Cookies := { csrf_token := some "tok1", user_email := none }

def c2p : Payment :=
  { id := "p1", amount := 500, reference := "ORD-1",
    webhook_url := "http://merchant.example/hook",
    redirect_url := "http://merchant.example/done",
    status := "pending", expires_at := 100000 }

def c2db0 : DB :=
  { payments := [c2p], operations := [], saved_cards := [], webhook_logs := [] }

def c2form1 : SubmitForm :=
  { card_number := some "4444 4444 4444 4444", expiry := some "12/30",
    cvv := some "123", saved_card_id := none, email := "payer@example.com",
    save_card := false, csrf_token := "tok1", idempotency_key := none }

def c2cookies1 : Cookies := { csrf_token := some "tok1", user_email := none }

def c2form2 : SubmitForm :=
  { c2form1 with card_number := some "1111111111111111", csrf_token := "tok2" }

def c2cookies2 : Cookies := { csrf_token := some "tok2", user_email := none }

def c2db1 : DB := (process_payment 10 "p1" c2form1 c2cookies1 7 "ct" false c2db0).2

def c2db2 : DB := (process_payment 20 "p1" c2form2 c2cookies2 8 "ct" false c2db1).2

def c2db3 : DB := (verify_otp 30 "p1" "100007" false c2db2).2

def c3p1 : Payment :=
  { id := "p1", amount := 500, reference := "ORD-1",
    webhook_url := "http://merchant.example/hook",
    redirect_url := "http://merchant.example/done",
    status := "pending", expires_at := 100000 }

def c3p2 : Payment := { c3p1 with id := "p2" }

def c3db0 : DB :=
  { payments := [c3p1, c3p2], operations := [], saved_cards := [], webhook_logs := [] }

def c3form1 : SubmitForm :=
  { card_number := some "1111111111111111", expiry := some "12/30",
    cvv := some "123", saved_card_id := none, email := "payer@example.com",
    save_card := false, csrf_token := "tok1", idempotency_key := some "K" }

def c3cookies1 : Cookies := { csrf_token := some "tok1", user_email := none }

def c3db1 : DB := (process_payment 10 "p1" c3form1 c3cookies1 7 "ct" false c3db0).2

def c3form2 : SubmitForm := { c3form1 with card_number := some "4444444444444444" }

def c3cookies2 : Cookies :=
  { csrf_token := some "tok1", user_email := some "payer@example.com" }

def c3res : Except PaymentErr PayResult × DB :=
  process_payment 20 "p2" c3form2 c3cookies2 8 "ct" false c3db1

def w3p1 : Payment :=
  { id := "p1", amount := 5, reference := "A", webhook_url := "http://m.example/h",
    redirect_url := "http://m.example/r", status := "paid",
    idempotency_key := some "K" }

def w3p2 : Payment := { w3p1 with id := "p2", status := "pending", idempotency_key := none }

def w3db : DB :=
  { payments := [w3p1, w3p2], operations := [], saved_cards := [], webhook_logs := [] }

def w3form : SubmitForm :=
  { card_number := none, expiry := none, cvv := none, saved_card_id := none,
    email := "e@example.com", save_card := false, csrf_token := "t",
    idempotency_key := some "K" }

def w3cookies : Cookies := { csrf_token := some "t", user_email := none }

def w4p : Payment :=
  { id := "w4", amount := 250, reference := "R4", webhook_url := "http://m.example/h",
    redirect_url := "http://m.example/r", status := "waiting_for_otp",
    otp_email := some "payer@example.com" }

def w4db : DB :=
  { payments := [w4p], operations := [], saved_cards := [], webhook_logs := [] }

def c6p : Payment :=
  { id := "p6", amount := 1, reference := "r", webhook_url := "",
    redirect_url := "", status := "paid" }

def c6db : DB :=
  { payments := [c6p], operations := [], saved_cards := [], webhook_logs := [] }

def w6p : Payment :=
  { id := "w6", amount := 1, reference := "r",
    webhook_url := "http://merchant.example/hook", redirect_url := "",
    status := "paid", webhook_attempts := 3 }

def w6db : DB :=
  { payments := [w6p], operations := [], saved_cards := [], webhook_logs := [] }

def w7p : Payment :=
  { id := "w7", amount := 10, reference := "R7", webhook_url := "",
    redirect_url := "", status := "waiting_for_otp", otp_code := some "123456" }

def w7db : DB :=
  { payments := [w7p], operations := [], saved_cards := [], webhook_logs := [] }

def w9p : Payment :=
  { id := "w9", amount := 10, reference := "R9", webhook_url := "",
    redirect_url := "", status := "waiting_for_otp", otp_code := some "777777",
    expires_at := 10 }

def w9db : DB :=
  { payments := [w9p], operations := [], saved_cards := [], webhook_logs := [] }

def w10p : Payment :=
  { id := "w10", amount := 1, reference := "r", webhook_url := "",
    redirect_url := "", status := "paid" }

def w10db : DB :=
  { payments := [w10p], operations := [], saved_cards := [], webhook_logs := [] }

/-! ## Helper lemmas on the repository and the state machine -/

lemma get_payment_eq_of_payments {db1 db2 : DB} (h : db1.payments = db2.payments)
    (pid : String) : get_payment db1 pid = get_payment db2 pid := by
  unfold get_payment
  rw [h]

lemma get_payment_id {db : DB} {pid : String} {p : Payment}
    (h : get_payment db pid = some p) : p.id = pid := by
  have := List.find?_some h
  simpa using this

lemma find?_cons_eq_ite {α : Type} (pred : α → Bool) (x : α) (xs : List α) :
    (x :: xs).find? pred = if pred x then some x else xs.find? pred := by
  cases h : pred x
  · simp [List.find?_cons, h]
  · simp [List.find?_cons, h]

lemma find?_map_update (p : Payment) (now : Nat) :
    ∀ (l : List Payment) (q : Payment), l.find? (fun r => r.id == p.id) = some q →
      (l.map (fun r => if r.id == p.id then { p with updated_at := now } else r)).find?
        (fun r => r.id == p.id) = some { p with updated_at := now } := by
  intro l
  induction l with
  | nil => intro q h; simp at h
  | cons x xs ih =>
    intro q h
    rw [find?_cons_eq_ite] at h
    by_cases hx : (x.id == p.id) = true
    · simp only [List.map_cons, if_pos hx]
      rw [find?_cons_eq_ite]
      simp
    · simp only [List.map_cons, if_neg hx]
      rw [find?_cons_eq_ite]
      rw [if_neg hx] at h ⊢
      exact ih q h

lemma get_payment_update {db : DB} {now : Nat} {p q : Payment}
    (h : get_payment db p.id = some q) :
    get_payment (update_payment db now p) p.id = some { p with updated_at := now } :=
  find?_map_update p now db.payments q h

lemma update_payment_operations (db : DB) (now : Nat) (p : Payment) :
    (update_payment db now p).operations = db.operations := rfl

lemma try_insert_receipt_payments (db : DB) (op : SuccessFulOperation) :
    (try_insert_receipt db op).payments = db.payments := by
  by_cases h : (db.operations.any (fun o => o.payment_id == op.payment_id)) = true
  · simp [try_insert_receipt, send_successful_operation, h]
  · simp [try_insert_receipt, send_successful_operation, h]

lemma try_insert_receipt_operations (db : DB) (op : SuccessFulOperation) :
    (try_insert_receipt db op).operations =
      if db.operations.any (fun o => o.payment_id == op.payment_id)
      then db.operations else db.operations ++ [op] := by
  by_cases h : (db.operations.any (fun o => o.payment_id == op.payment_id)) = true
  · simp [try_insert_receipt, send_successful_operation, h]
  · simp [try_insert_receipt, send_successful_operation, h]

lemma finalize_payments (now : Nat) (p : Payment) (db : DB) (rf : Bool) :
    (finalize_successful_payment now p db rf).payments
      = (update_payment db now { p with status := "paid", paid_at := some now }).payments := by
  cases rf
  · exact try_insert_receipt_payments _ _
  · rfl

lemma get_payment_finalize {db : DB} {now : Nat} {p q : Payment} (rf : Bool)
    (h : get_payment db p.id = some q) :
    get_payment (finalize_successful_payment now p db rf) p.id
      = some { p with status := "paid", paid_at := some now, updated_at := now } := by
  rw [get_payment_eq_of_payments (finalize_payments now p db rf)]
  exact get_payment_update h

/-! ## Helper lemmas on the signature codec -/

lemma nibbleChar_mem_hexTable (n : Nat) : nibbleChar n ∈ hexTable := by
  unfold nibbleChar
  by_cases h : n < hexTable.length
  · rw [List.getD_eq_getElem _ _ h]
    exact List.getElem_mem _
  · rw [List.getD_eq_default _ _ (le_of_not_lt h)]
    decide

lemma hexChars_length (l : List Nat) : (hexChars l).length = 2 * l.length := by
  induction l with
  | nil => rfl
  | cons b rest ih => simp [hexChars] at ih ⊢; omega

lemma hexChars_mem (l : List Nat) (c : Char) (h : c ∈ hexChars l) : c ∈ hexTable := by
  induction l with
  | nil => simp [hexChars] at h
  | cons b rest ih =>
    simp only [hexChars, List.foldr_cons, List.mem_cons] at h
    rcases h with h | h | h
    · exact h ▸ nibbleChar_mem_hexTable _
    · exact h ▸ nibbleChar_mem_hexTable _
    · exact ih h

lemma beBytes_length (count n : Nat) : (beBytes count n).length = count := by
  simp [beBytes]

lemma digestBytes_length (st : H8) : (digestBytes st).length = 32 := by
  simp [digestBytes, beBytes_length]

lemma sha256_length (msg : List Nat) : (sha256 msg).length = 32 := by
  simp [sha256, digestBytes_length]

lemma signature_length (p : JValue) (secret : String) :
    (generate_webhook_signature p secret).data.length = 64 := by
  show (hexChars (hmacSha256 (strBytes secret) (strBytes (dumpsVal p)))).length = 64
  rw [hexChars_length, hmacSha256, sha256_length]

lemma signature_getD_mem (p : JValue) (secret : String) (i : Nat)
    (h : i < (generate_webhook_signature p secret).data.length) :
    (generate_webhook_signature p secret).data.getD i ' ' ∈ hexTable := by
  rw [List.getD_eq_getElem _ _ h]
  exact hexChars_mem _ _ (List.getElem_mem _)

lemma getD_set_self (l : List Char) (i : Nat) (c : Char) (h : i < l.length) :
    (l.set i c).getD i ' ' = c := by
  induction l generalizing i with
  | nil => simp at h
  | cons x xs ih =>
    cases i with
    | zero => rfl
    | succ j => exact ih j (by simpa using h)

/-- Keys are unchanged by value serialization. -/
lemma dumpsKV_eq_map (l : List (String × JValue)) :
    dumpsKV l = l.map (fun e => (e.1, dumpsVal e.2)) := by
  induction l with
  | nil => rfl
  | cons e rest ih => cases e; simp [dumpsKV, ih]

lemma insortKV_comm (a b : String × String) (hab : a.1 ≠ b.1)
    (l : List (String × String)) :
    insortKV a (insortKV b l) = insortKV b (insortKV a l) := by
  induction l with
  | nil =>
    by_cases h1 : a.1 ≤ b.1
    · have h2 : ¬ b.1 ≤ a.1 := fun h2 => hab (le_antisymm h1 h2)
      simp [insortKV, h1, h2]
    · have h2 : b.1 ≤ a.1 := le_of_not_le h1
      simp [insortKV, h1, h2]
  | cons x xs ih =>
    by_cases hax : a.1 ≤ x.1 <;> by_cases hbx : b.1 ≤ x.1
    · by_cases h1 : a.1 ≤ b.1
      · have h2 : ¬ b.1 ≤ a.1 := fun h2 => hab (le_antisymm h1 h2)
        simp [insortKV, hax, hbx, h1, h2]
      · have h2 : b.1 ≤ a.1 := le_of_not_le h1
        simp [insortKV, hax, hbx, h1, h2]
    · have h1 : a.1 ≤ b.1 := le_trans hax (le_of_not_le hbx)
      have h2 : ¬ b.1 ≤ a.1 := fun h2 => hbx (le_trans h2 hax)
      simp [insortKV, hax, hbx, h1, h2]
    · have h1 : ¬ a.1 ≤ b.1 := fun h1 => hax (le_trans h1 hbx)
      have h2 : b.1 ≤ a.1 := le_of_not_le h1
      simp [insortKV, hax, hbx, h1, h2]
    · simp [insortKV, hax, hbx, ih]

lemma sortKV_cons (x : String × String) (l : List (String × String)) :
    sortKV (x :: l) = insortKV x (sortKV l) := rfl

lemma sortKV_perm_eq {l1 l2 : List (String × String)} (h : l1.Perm l2)
    (nd : (l1.map Prod.fst).Nodup) : sortKV l1 = sortKV l2 := by
  induction h with
  | nil => rfl
  | cons x h ih =>
    rw [sortKV_cons, sortKV_cons, ih (by simpa using (List.nodup_cons.mp (by simpa using nd)).2)]
  | swap x y l =>
    rw [sortKV_cons, sortKV_cons, sortKV_cons, sortKV_cons]
    have hxy : y.1 ≠ x.1 := by
      simp only [List.map_cons, List.nodup_cons, List.mem_cons, not_or] at nd
      exact nd.1.1
    exact insortKV_comm y x hxy (sortKV l)
  | trans h1 h2 ih1 ih2 =>
    have nd2 := ((h1.map Prod.fst).nodup_iff).mp nd
    rw [ih1 nd, ih2 nd2]

lemma finalize_false_eq (now : Nat) (p : Payment) (db : DB) :
    finalize_successful_payment now p db false
      = try_insert_receipt
          (update_payment db now { p with status := "paid", paid_at := some now })
          { payment_id := p.id, email := p.otp_email, amount := p.amount,
            reference := p.reference, card_mask := p.card_mask,
            redirect_url := p.redirect_url, created_at := now } := rfl

lemma countOps_try_insert_eq (db : DB) (op : SuccessFulOperation) (pid : String)
    (h : op.payment_id = pid) :
    countOps (try_insert_receipt db op) pid
      = if db.operations.any (fun o => o.payment_id == pid) then countOps db pid
        else countOps db pid + 1 := by
  subst h
  rw [countOps, try_insert_receipt_operations]
  by_cases hc : (db.operations.any (fun o => o.payment_id == op.payment_id)) = true
  · rw [if_pos hc, if_pos hc]; rfl
  · rw [if_neg hc, if_neg hc, List.filter_append]
    simp [countOps]

lemma countOps_finalize_false (now : Nat) (p : Payment) (db : DB) :
    countOps (finalize_successful_payment now p db false) p.id
      = if db.operations.any (fun o => o.payment_id == p.id) then countOps db p.id
        else countOps db p.id + 1 := by
  rw [finalize_false_eq]
  exact countOps_try_insert_eq _ _ _ rfl

lemma countOps_finalize_true (now : Nat) (p : Payment) (db : DB) (pid : String) :
    countOps (finalize_successful_payment now p db true) pid = countOps db pid := rfl

lemma any_of_countOps_pos {db : DB} {pid : String} (h : countOps db pid ≠ 0) :
    (db.operations.any (fun o => o.payment_id == pid)) = true := by
  rw [List.any_eq_true]
  have hne : (db.operations.filter (fun o => o.payment_id == pid)) ≠ [] := by
    intro hh
    exact h (by simp [countOps, hh])
  obtain ⟨x, hx⟩ := List.exists_mem_of_ne_nil _ hne
  exact ⟨x, (List.mem_filter.mp hx).1, (List.mem_filter.mp hx).2⟩

lemma retry_fold_ids (now : Nat) (outcomes : String → HttpOutcome)
    (due : List Payment) : ∀ st : DB × List RetryRecord,
      ((due.foldl (retry_step now outcomes) st).2).map RetryRecord.payment_id
        = st.2.map RetryRecord.payment_id ++ due.map Payment.id := by
  induction due with
  | nil => intro st; simp
  | cons p rest ih =>
    intro st
    rw [List.foldl_cons, ih]
    simp [retry_step]

lemma retry_fold_delays (now : Nat) (outcomes : String → HttpOutcome)
    (due : List Payment) : ∀ st : DB × List RetryRecord,
      ((due.foldl (retry_step now outcomes) st).2).map RetryRecord.delay
        = st.2.map RetryRecord.delay ++ due.map (fun p => 2 ^ p.webhook_attempts) := by
  induction due with
  | nil => intro st; simp
  | cons p rest ih =>
    intro st
    rw [List.foldl_cons, ih]
    simp [retry_step]

/-! ## C5: signature round-trip, mutation rejection, canonical serialization -/

/-- C5.  For every payload, verify(payload, sign(payload)) is true; verify is
    false for any signature other than the computed one, in particular for
    any single-byte mutation of a valid signature; and signing is independent
    of the insertion order of the payload's map fields, because the JSON
    serialization sorts keys lexicographically before the hex-encoded
    HMAC-SHA256 is computed. -/
theorem c5_signature_roundtrip_and_canonical :
    (∀ (p : JValue) (secret : String),
      verify_webhook_signature p (generate_webhook_signature p secret) secret = true)
    ∧ (∀ (p : JValue) (secret s : String), s ≠ generate_webhook_signature p secret →
      verify_webhook_signature p s secret = false)
    ∧ (∀ (p : JValue) (secret : String) (i : Nat) (c : Char),
      i < (generate_webhook_signature p secret).data.length →
      c ≠ (generate_webhook_signature p secret).data.getD i ' ' →
      verify_webhook_signature p (strSet (generate_webhook_signature p secret) i c) secret
        = false)
    ∧ (∀ (l1 l2 : List (String × JValue)) (secret : String), l1.Perm l2 →
      (l1.map Prod.fst).Nodup →
      generate_webhook_signature (.obj l1) secret
        = generate_webhook_signature (.obj l2) secret) := by
  refine ⟨fun p secret => ?_, fun p secret s hne => ?_, fun p secret i c hi hc => ?_,
    fun l1 l2 secret hperm hnd => ?_⟩
  · simp [verify_webhook_signature]
  · simp only [verify_webhook_signature, beq_eq_false_iff_ne, ne_eq]
    exact fun h => hne h.symm
  · simp only [verify_webhook_signature, beq_eq_false_iff_ne, ne_eq]
    intro h
    have hdata := congrArg String.data h
    have hset : ((generate_webhook_signature p secret).data.set i c).getD i ' ' = c :=
      getD_set_self _ _ _ hi
    have hgot : (generate_webhook_signature p secret).data.getD i ' ' = c := by
      rw [hdata]; exact hset
    exact hc hgot.symm
  · have hkv : (dumpsKV l1).Perm (dumpsKV l2) := by
      rw [dumpsKV_eq_map, dumpsKV_eq_map]
      exact hperm.map _
    have hnd1 : ((dumpsKV l1).map Prod.fst).Nodup := by
      rw [dumpsKV_eq_map, List.map_map]
      simpa using hnd
    have hsort : sortKV (dumpsKV l1) = sortKV (dumpsKV l2) := sortKV_perm_eq hkv hnd1
    show hexEncode (hmacSha256 (strBytes secret) (strBytes (dumpsVal (JValue.obj l1))))
      = hexEncode (hmacSha256 (strBytes secret) (strBytes (dumpsVal (JValue.obj l2))))
    rw [show dumpsVal (JValue.obj l1) = dumpsVal (JValue.obj l2) from by
      rw [dumpsVal, dumpsVal, hsort]]

/-- Witness for C5 at concrete inputs: the round trip holds for a concrete
    payload, a mutated first signature byte is rejected, an unrelated string
    is rejected, and two insertion orders of the same two fields sign
    identically. -/
theorem c5_witness :
    verify_webhook_signature (.obj [("a", .num 1)])
      (generate_webhook_signature (.obj [("a", .num 1)]) "k") "k" = true
    ∧ verify_webhook_signature (.obj [("a", .num 1)]) "" "k" = false
    ∧ verify_webhook_signature (.obj [("a", .num 1)])
      (strSet (generate_webhook_signature (.obj [("a", .num 1)]) "k") 0 'z') "k" = false
    ∧ generate_webhook_signature (.obj [("a", .num 1), ("b", .str "x")]) "k"
      = generate_webhook_signature (.obj [("b", .str "x"), ("a", .num 1)]) "k" := by
  have hlen := signature_length (.obj [("a", .num 1)]) "k"
  refine ⟨c5_signature_roundtrip_and_canonical.1 _ _,
    c5_signature_roundtrip_and_canonical.2.1 _ _ _ ?_,
    c5_signature_roundtrip_and_canonical.2.2.1 _ _ 0 'z' (by rw [hlen]; decide) ?_,
    c5_signature_roundtrip_and_canonical.2.2.2 _ _ "k" (List.Perm.swap _ _ _) (by decide)⟩
  · intro h
    have h2 := hlen
    rw [← h] at h2
    exact absurd h2 (by decide)
  · intro h
    have hmem := signature_getD_mem (.obj [("a", .num 1)]) "k" 0 (by rw [hlen]; decide)
    rw [← h] at hmem
    revert hmem
    decide

/-! ## C1: lazy expiry on submission -/

/-- C1.  The claim says SubmitPayment on an expired pending payment rejects
    with Expired and marks the record expired.  The handler performs no
    expires_at check at all: on the concrete expired pending payment `c1p`
    (expiry tick 100, submission at tick 200) a valid-card submission
    succeeds with a redirect to the OTP page and the stored status becomes
    waiting_for_otp, not expired. -/
theorem c1_submit_ignores_expiry :
    c1p.status = "pending"
    ∧ c1p.expires_at < 200
    ∧ (process_payment 200 "p1" c1form c1cookies 7 "ct" false c1db).1
        = .ok (.redirectOtp "p1")
    ∧ (process_payment 200 "p1" c1form c1cookies 7 "ct" false c1db).1
        ≠ .error (.expired "p1")
    ∧ statusInDb (process_payment 200 "p1" c1form c1cookies 7 "ct" false c1db).2 "p1"
        = some "waiting_for_otp" := by
  decide

/-! ## C2: the transition graph is violated by the code -/

/-- C2.  The claim says statuses move only along
    pending → waiting_for_otp → paid, pending → failed,
    pending/waiting_for_otp → expired.  On the concrete trace below the code
    moves a payment waiting_for_otp → failed (resubmission with an invalid
    card is not blocked by the terminal-state guard) and then failed → paid
    (verify_otp checks no status and the failed path does not clear the
    stored OTP), leaving the terminal state failed. -/
theorem c2_transition_graph_violated :
    statusInDb c2db1 "p1" = some "waiting_for_otp"
    ∧ statusInDb c2db2 "p1" = some "failed"
    ∧ (verify_otp 30 "p1" "100007" false c2db2).1 = .ok (.redirectSuccess "p1")
    ∧ statusInDb c2db3 "p1" = some "paid" := by
  decide

/-! ## C3: idempotency short-circuit -/

/-- C3 counterexample.  After payment p1 fails holding idempotency key K,
    a submission for the different payment p2 carrying the same key K is
    processed in full and finalizes p2 to paid — the second payment is
    finalized independently, against the claim. -/
theorem c3_counterexample :
    (get_payment_by_idempotency c3db1 "K").map Payment.id = some "p1"
    ∧ statusInDb c3db1 "p1" = some "failed"
    ∧ c3res.1 = .ok (.redirectSuccess "p2")
    ∧ statusInDb c3res.2 "p2" = some "paid" := by
  decide

/-- C3 amended.  When the payment already holding the supplied idempotency
    key is paid or waiting_for_otp, the submission short-circuits with a
    redirect to that first payment's success or OTP page and the store is
    untouched (the second payment is not processed); any other first-payment
    status falls through to normal processing. -/
theorem c3_amended_idempotency_shortcut :
    ∀ (now : Nat) (pid : String) (form : SubmitForm) (cookies : Cookies)
      (ent : Nat) (tok : String) (rf : Bool) (db : DB) (k : String)
      (existing : Payment),
      cookies.csrf_token = some form.csrf_token → form.csrf_token ≠ "" →
      form.idempotency_key = some k → k ≠ "" →
      get_payment_by_idempotency db k = some existing → existing.id ≠ pid →
      (existing.status = "paid" →
        process_payment now pid form cookies ent tok rf db
          = (.ok (.redirectSuccess existing.id), db))
      ∧ (existing.status = "waiting_for_otp" →
        process_payment now pid form cookies ent tok rf db
          = (.ok (.redirectOtp existing.id), db)) := by
  intro now pid form cookies ent tok rf db k existing hcookie hne hkey hk hlookup hid
  have hcsrf : csrf_ok cookies.csrf_token form.csrf_token = true := by
    rw [hcookie]
    simp [csrf_ok, hne]
  have hbne : (existing.id != pid) = true := bne_iff_ne.mpr hid
  have hkb : (k == "") = false := beq_eq_false_iff_ne.mpr hk
  constructor
  · intro hpaid
    have hshort : idempotency_shortcut db pid form.idempotency_key
        = some (.redirectSuccess existing.id) := by
      rw [hkey]
      simp [idempotency_shortcut, hkb, hlookup, hbne, hpaid]
    simp [process_payment, hcsrf, hshort]
  · intro hwait
    have hshort : idempotency_shortcut db pid form.idempotency_key
        = some (.redirectOtp existing.id) := by
      rw [hkey]
      simp [idempotency_shortcut, hkb, hlookup, hbne, hwait]
    simp [process_payment, hcsrf, hshort]

/-- Witness for the amended C3: with p1 paid under key K, the submission for
    p2 carrying K redirects to p1's success page and leaves the store
    unchanged. -/
theorem c3_amended_witness :
    process_payment 5 "p2" w3form w3cookies 1 "tk" false w3db
      = (.ok (.redirectSuccess "p1"), w3db) :=
  (c3_amended_idempotency_shortcut 5 "p2" w3form w3cookies 1 "tk" false w3db "K"
    w3p1 rfl (by decide) rfl (by decide) (by decide) (by decide)).1 rfl

/-! ## C4: finalize idempotency -/

/-- C4.  Starting from a store holding the payment and no receipt row,
    finalizing twice leaves exactly one SuccessfulOperation row for the
    payment id (the duplicate insert hits the unique constraint and is
    swallowed), the stored status is paid, and the paid status is committed
    for either value of the receipt-write-failure flag. -/
theorem c4_finalize_idempotent :
    ∀ (now1 now2 : Nat) (db : DB) (p : Payment) (f2 : Bool),
      get_payment db p.id = some p → countOps db p.id = 0 →
      countOps (finalize_successful_payment now2 p
          (finalize_successful_payment now1 p db false) f2) p.id = 1
      ∧ statusInDb (finalize_successful_payment now2 p
          (finalize_successful_payment now1 p db false) f2) p.id = some "paid"
      ∧ (∀ f1, statusInDb (finalize_successful_payment now1 p db f1) p.id
          = some "paid") := by
  intro now1 now2 db p f2 hp h0
  have hany0 : (db.operations.any (fun o => o.payment_id == p.id)) = false := by
    rw [List.any_eq_false]
    intro o ho hoeq
    have hmem : o ∈ db.operations.filter (fun o => o.payment_id == p.id) :=
      List.mem_filter.mpr ⟨ho, hoeq⟩
    have hnil := List.length_eq_zero.mp h0
    rw [hnil] at hmem
    simp at hmem
  have hc1 : countOps (finalize_successful_payment now1 p db false) p.id = 1 := by
    rw [countOps_finalize_false, if_neg (by simp [hany0]), h0]
  have hc2 : countOps (finalize_successful_payment now2 p
      (finalize_successful_payment now1 p db false) f2) p.id = 1 := by
    cases f2
    · rw [countOps_finalize_false, if_pos (any_of_countOps_pos (by simp [hc1])), hc1]
    · rw [countOps_finalize_true, hc1]
  have hp1 : get_payment (finalize_successful_payment now1 p db false) p.id
      = some { p with status := "paid", paid_at := some now1, updated_at := now1 } :=
    get_payment_finalize false hp
  have hp2 : get_payment (finalize_successful_payment now2 p
      (finalize_successful_payment now1 p db false) f2) p.id
      = some { p with status := "paid", paid_at := some now2, updated_at := now2 } :=
    get_payment_finalize f2 hp1
  refine ⟨hc2, ?_, ?_⟩
  · simp [statusInDb, hp2]
  · intro f1
    simp [statusInDb, get_payment_finalize f1 hp]

/-- Witness for C4 at a concrete store: two finalizations of w4p leave one
    receipt row and the stored status paid. -/
theorem c4_witness :
    countOps (finalize_successful_payment 2 w4p
      (finalize_successful_payment 1 w4p w4db false) false) w4p.id = 1
    ∧ statusInDb (finalize_successful_payment 2 w4p
      (finalize_successful_payment 1 w4p w4db false) false) w4p.id = some "paid" := by
  have h := c4_finalize_idempotent 1 2 w4db w4p false (by decide) (by decide)
  exact ⟨h.1, h.2.1⟩

/-! ## C6 and C10: webhook delivery logging -/

/-- C6 counterexample.  On a payment whose webhook URL is empty the delivery
    call appends no WebhookLog row at all, against the claim that every call
    on every payment appends exactly one row. -/
theorem c6_counterexample :
    (send_webhook_with_retry 5 c6p HttpOutcome.timeout c6db).2.2.webhook_logs.length
      ≠ c6db.webhook_logs.length + 1 := by
  decide

/-- C6 amended.  For every payment with a non-empty webhook URL, each
    delivery call — success, non-2xx status, timeout, or transport error —
    appends exactly one WebhookLog row carrying the payment id and attempt
    number counter + 1, and the payment's attempt counter advances to
    counter + 1, hence strictly increases across repeated delivery calls. -/
theorem c6_amended_one_log_per_call :
    ∀ (now : Nat) (p : Payment) (outcome : HttpOutcome) (db : DB),
      p.webhook_url ≠ "" →
      ∃ row : WebhookLog,
        (send_webhook_with_retry now p outcome db).2.2.webhook_logs
          = db.webhook_logs ++ [row]
        ∧ row.payment_id = p.id
        ∧ row.attempt_number = p.webhook_attempts + 1
        ∧ (send_webhook_with_retry now p outcome db).2.1.webhook_attempts
            = p.webhook_attempts + 1 := by
  intro now p outcome db h
  have hb : ¬ ((p.webhook_url == "") = true) := by simp [h]
  cases outcome with
  | response st body =>
    unfold send_webhook_with_retry
    rw [if_neg hb]
    exact ⟨_, rfl, rfl, rfl, rfl⟩
  | timeout =>
    unfold send_webhook_with_retry
    rw [if_neg hb]
    exact ⟨_, rfl, rfl, rfl, rfl⟩
  | transportError msg =>
    unfold send_webhook_with_retry
    rw [if_neg hb]
    exact ⟨_, rfl, rfl, rfl, rfl⟩

/-- Witness for the amended C6 on a concrete failed delivery (HTTP 500):
    one appended row and the counter stepping from 3 to 4. -/
theorem c6_amended_witness :
    (send_webhook_with_retry 9 w6p (HttpOutcome.response 500 "err") w6db).2.1.webhook_attempts
      = w6p.webhook_attempts + 1
    ∧ (send_webhook_with_retry 9 w6p (HttpOutcome.response 500 "err") w6db).2.2.webhook_logs.length
      = w6db.webhook_logs.length + 1 := by
  obtain ⟨row, hlogs, _hpid, _hatt, hctr⟩ :=
    c6_amended_one_log_per_call 9 w6p (HttpOutcome.response 500 "err") w6db (by decide)
  refine ⟨hctr, ?_⟩
  rw [hlogs]
  simp

/-- C10.  A falsy webhook URL makes the delivery call return false with the
    payment and the store completely untouched: no log row, no counter,
    timestamp or delivery-status change. -/
theorem c10_empty_url_no_effect :
    ∀ (now : Nat) (p : Payment) (outcome : HttpOutcome) (db : DB),
      p.webhook_url = "" →
      send_webhook_with_retry now p outcome db = (false, p, db) := by
  intro now p outcome db h
  simp [send_webhook_with_retry, h]

/-- Witness for C10 at a concrete payment with empty webhook URL. -/
theorem c10_witness :
    send_webhook_with_retry 5 w10p HttpOutcome.timeout w10db = (false, w10p, w10db) :=
  c10_empty_url_no_effect 5 w10p HttpOutcome.timeout w10db rfl

/-! ## C7 and C9: OTP verification -/

/-- C7.  For a payment in waiting_for_otp: a null stored code or a mismatch
    fails with InvalidOTP and mutates nothing (the store is returned
    unchanged, so the status stays waiting_for_otp and the stored code is not
    cleared); an exact match on a truthy stored code clears the code and
    finalizes the payment to paid. -/
theorem c7_verify_otp_cases :
    ∀ (now : Nat) (pid code : String) (rf : Bool) (db : DB) (p : Payment),
      get_payment db pid = some p → p.status = "waiting_for_otp" →
      ((p.otp_code = none ∨ p.otp_code ≠ some code) →
        verify_otp now pid code rf db = (.error (.invalidOTP pid), db)
        ∧ statusInDb db pid = some "waiting_for_otp")
      ∧ (∀ c, p.otp_code = some c → c ≠ "" → c = code →
        (verify_otp now pid code rf db).1 = .ok (.redirectSuccess pid)
        ∧ ∃ q, get_payment (verify_otp now pid code rf db).2 pid = some q
            ∧ q.status = "paid" ∧ q.otp_code = none) := by
  intro now pid code rf db p hp hst
  constructor
  · intro hbad
    have hv : validate_otp p code = false := by
      rcases hbad with hnone | hneq
      · simp [validate_otp, hnone]
      · rcases hc : p.otp_code with _ | c
        · simp [validate_otp, hc]
        · have hcc : c ≠ code := fun hh => hneq (by rw [hc, hh])
          by_cases hemp : (c == "") = true
          · simp [validate_otp, hc, hemp]
          · simp [validate_otp, hc, hemp, beq_eq_false_iff_ne.mpr hcc]
    constructor
    · simp [verify_otp, hp, hv]
    · simp [statusInDb, hp, hst]
  · intro c hc hcne hceq
    have hv : validate_otp p code = true := by
      subst hceq
      simp [validate_otp, hc, beq_eq_false_iff_ne.mpr hcne]
    have hpid : p.id = pid := get_payment_id hp
    have hp' : get_payment db p.id = some p := by rw [hpid]; exact hp
    have h2 : (verify_otp now pid code rf db).2
        = finalize_successful_payment now { p with otp_code := none } db rf := by
      simp [verify_otp, hp, hv]
    have hfin : get_payment
        (finalize_successful_payment now { p with otp_code := none } db rf) p.id
        = some { p with
                 otp_code := none, status := "paid", paid_at := some now,
                 updated_at := now } :=
      get_payment_finalize rf hp'
    constructor
    · simp [verify_otp, hp, hv]
    · refine ⟨{ p with
        otp_code := none, status := "paid", paid_at := some now,
        updated_at := now }, ?_, rfl, rfl⟩
      rw [h2, ← hpid]
      exact hfin

/-- Witness for C7: a wrong code on w7p fails with InvalidOTP and leaves the
    store unchanged; the exact code succeeds. -/
theorem c7_witness :
    verify_otp 50 "w7" "999999" false w7db = (.error (.invalidOTP "w7"), w7db)
    ∧ (verify_otp 50 "w7" "123456" false w7db).1 = .ok (.redirectSuccess "w7") := by
  constructor
  · exact ((c7_verify_otp_cases 50 "w7" "999999" false w7db w7p (by decide) rfl).1
      (Or.inr (by decide))).1
  · exact ((c7_verify_otp_cases 50 "w7" "123456" false w7db w7p (by decide) rfl).2
      "123456" rfl (by decide) rfl).1

/-- C9.  VerifyOTP consults neither status nor expiry: a matching truthy code
    on a waiting_for_otp payment whose expires_at is already past still
    finalizes to paid, and because finalization clears the stored code, a
    second VerifyOTP on the resulting paid payment fails with InvalidOTP for
    every submitted code. -/
theorem c9_verify_otp_ignores_expiry :
    ∀ (now now2 : Nat) (pid code code2 : String) (rf rf2 : Bool) (db : DB)
      (p : Payment),
      get_payment db pid = some p → p.status = "waiting_for_otp" →
      p.otp_code = some code → code ≠ "" → p.expires_at < now →
      (verify_otp now pid code rf db).1 = .ok (.redirectSuccess pid)
      ∧ (∃ q, get_payment (verify_otp now pid code rf db).2 pid = some q
          ∧ q.status = "paid" ∧ q.otp_code = none)
      ∧ (verify_otp now2 pid code2 rf2 (verify_otp now pid code rf db).2).1
          = .error (.invalidOTP pid) := by
  intro now now2 pid code code2 rf rf2 db p hp hst hc hcne hexp
  have hv : validate_otp p code = true := by
    simp [validate_otp, hc, beq_eq_false_iff_ne.mpr hcne]
  have hpid : p.id = pid := get_payment_id hp
  have hp' : get_payment db p.id = some p := by rw [hpid]; exact hp
  have h2 : (verify_otp now pid code rf db).2
      = finalize_successful_payment now { p with otp_code := none } db rf := by
    simp [verify_otp, hp, hv]
  have hfin : get_payment
      (finalize_successful_payment now { p with otp_code := none } db rf) p.id
      = some { p with
               otp_code := none, status := "paid", paid_at := some now,
               updated_at := now } :=
    get_payment_finalize rf hp'
  have hq : get_payment (verify_otp now pid code rf db).2 pid
      = some { p with
               otp_code := none, status := "paid", paid_at := some now,
               updated_at := now } := by
    rw [h2, ← hpid]
    exact hfin
  refine ⟨by simp [verify_otp, hp, hv], ⟨_, hq, rfl, rfl⟩, ?_⟩
  have hv2 : validate_otp { p with
      otp_code := none, status := "paid",
      paid_at := some now, updated_at := now } code2 = false := by
    simp [validate_otp]
  have hgen : ∀ d : DB,
      get_payment d pid = some { p with
        otp_code := none, status := "paid",
        paid_at := some now, updated_at := now } →
      (verify_otp now2 pid code2 rf2 d).1 = .error (.invalidOTP pid) := by
    intro d hd
    simp [verify_otp, hd, hv2]
  exact hgen _ hq

/-- Witness for C9: the expired waiting payment w9p (expiry tick 10) is
    verified at tick 99 and ends paid; re-verification fails. -/
theorem c9_witness :
    (verify_otp 99 "w9" "777777" false w9db).1 = .ok (.redirectSuccess "w9")
    ∧ (verify_otp 77 "w9" "777777" true (verify_otp 99 "w9" "777777" false w9db).2).1
        = .error (.invalidOTP "w9") := by
  have h := c9_verify_otp_ignores_expiry 99 77 "w9" "777777" "777777" false true
    w9db w9p (by decide) rfl rfl (by decide) (by decide)
  exact ⟨h.1, h.2.2⟩

/-! ## C8: the webhook retry sweep -/

/-- C8.  One retry-sweep iteration processes exactly the payments with
    status paid, delivery status failed and fewer than 5 attempts — whatever
    the HTTP outcomes are, so one payment's failed retry never aborts the
    rest — and each processed payment waits a backoff delay of
    2 ^ (its current attempt count) before its single delivery attempt. -/
theorem c8_retry_sweep_exact :
    ∀ (now : Nat) (outcomes : String → HttpOutcome) (db : DB),
      ((retry_failed_webhooks_iteration now outcomes db).2).map RetryRecord.payment_id
        = (db.payments.filter (fun p => decide (p.webhook_attempts < 5)
            && p.webhook_status == some "failed" && p.status == "paid")).map Payment.id
      ∧ ((retry_failed_webhooks_iteration now outcomes db).2).map RetryRecord.delay
        = (db.payments.filter (fun p => decide (p.webhook_attempts < 5)
            && p.webhook_status == some "failed" && p.status == "paid")).map
            (fun p => 2 ^ p.webhook_attempts) := by
  intro now outcomes db
  constructor
  · rw [retry_failed_webhooks_iteration, retry_fold_ids]
    simp [get_failed_webhooks]
  · rw [retry_failed_webhooks_iteration, retry_fold_delays]
    simp [get_failed_webhooks]

end AcquireMock
